import Mathlib

/-!
Verification of the zenvark distributed circuit breaker core against its
natural-language specification.  The TypeScript source is shallowly embedded:
pure decision logic becomes Lean functions, stateful handlers become functions
from an explicit context to an effect record, and the outcomes of awaited
promises (the guarded function, pending start/stop operations, the Redis
append) are supplied as explicit parameters.
-/

namespace Zenvark

/-! ## Domain value types (from `constants.ts` and `types.ts`) -/

/-- `CallResult` enum: on-the-wire values "success" / "failure". -/
inductive CallResult where
  | success
  | failure
deriving DecidableEq, Repr

/-- `CircuitState` enum: `closed` lets calls pass, `opened` blocks them
(on-the-wire values "closed" / "open"). -/
inductive CircuitState where
  | closed
  | opened
deriving DecidableEq, Repr

/-- `CircuitRole` enum. -/
inductive CircuitRole where
  | leader
  | follower
deriving DecidableEq, Repr

/-- `HealthCheckType` enum. -/
inductive HealthCheckType where
  | recovery
  | idle
deriving DecidableEq, Repr

/-- `CallResultEvent` from `types.ts`.  Log positions are opaque, totally
ordered Redis stream ids; they are embedded as naturals. -/
structure CallResultEvent where
  id : Nat
  callResult : CallResult
  timestamp : Nat
deriving DecidableEq, Repr

/-- `CircuitOpenError` from `errors/circuit-open-error.ts`: an `InternalError`
with code `CIRCUIT_IS_OPEN` and the circuit id in its details. -/
structure CircuitOpenError where
  message : String
  errorCode : String
  circuitId : String
deriving DecidableEq, Repr

/-- The `CircuitOpenError` constructor. -/
def mkCircuitOpenError (circuitId : String) : CircuitOpenError :=
  { message := "Circuit is open"
    errorCode := "CIRCUIT_IS_OPEN"
    circuitId := circuitId }

/-! ## `CircuitBreaker.execute` (from `circuit-breaker.ts`)

`execute(fn)` consults the locally cached circuit state.  When the state is
OPEN it records a blocked-request metric (when a metrics sink is configured)
and throws `CircuitOpenError(id)` without invoking `fn`.  Otherwise it runs
`fn`, records the outcome through `recordCallResult` (metric plus
fire-and-forget append to the call-result store), and propagates `fn`'s value
or error unchanged.

The guarded function is embedded as its settled result `Except ε α`; the
outcome of the asynchronous Redis append is the parameter `appendOk`. -/

/-- The part of the orchestrator context that `execute` reads. -/
structure ExecEnv where
  circuitId : String
  /-- Locally cached circuit state (`circuitStateStore.getState()`). -/
  state : CircuitState
  /-- Whether a metrics sink was configured (`this.metrics` is set). -/
  metricsConfigured : Bool
deriving DecidableEq, Repr

/-- What a call to `execute` settles with. -/
inductive ExecOutcome (ε α : Type) where
  /-- `execute` threw `CircuitOpenError`. -/
  | circuitOpen (e : CircuitOpenError)
  /-- `execute` resolved with the guarded function's value. -/
  | value (v : α)
  /-- `execute` re-threw the guarded function's error. -/
  | userError (e : ε)
deriving DecidableEq, Repr

/-- Side effects performed by one `execute` call. -/
structure ExecEffects where
  /-- `metrics.recordBlockedRequest` was invoked. -/
  blockedRecorded : Bool
  /-- `metrics.recordCall` was invoked with this outcome. -/
  callMetric : Option CallResult
  /-- `callResultStore.storeCallResult` was invoked with this outcome. -/
  appended : Option CallResult
  /-- The guarded function `fn` was invoked. -/
  fnInvoked : Bool
  /-- The store's write-error callback was invoked. -/
  writeErrorReported : Bool
deriving DecidableEq, Repr

/-- Modelled from the spec: `call-result-store.ts`'s `storeCallResult`
write-error handling.  The store revision accepting the `onStreamWriteError`
callback that `circuit-breaker.ts` wires up is not under `src/` (only its test
`call-result-store.spec.ts` and its caller are); per the spec, "Appends are
fire-and-forget from the caller's perspective; write errors are reported via
an error callback."  A failed append therefore invokes the error callback
rather than rejecting into the caller. -/
def storeCallResultEffect (outcome : CallResult) (appendOk : Bool) :
    Option CallResult × Bool :=
  (some outcome, !appendOk)

/-- `CircuitBreaker.recordCallResult`: records the call metric (when a metrics
sink is configured) and enqueues the append to the call-result store.  Returns
the `callMetric`, `appended` and `writeErrorReported` effect components. -/
def recordCallResult (env : ExecEnv) (outcome : CallResult) (appendOk : Bool) :
    Option CallResult × Option CallResult × Bool :=
  let metric := if env.metricsConfigured then some outcome else none
  let store := storeCallResultEffect outcome appendOk
  (metric, store.1, store.2)

/-- `CircuitBreaker.execute` over the embedded context.  `fn` is the guarded
function's settled result; `appendOk` is the fate of the asynchronous log
append (which `execute` does not await). -/
def execute (env : ExecEnv) (fn : Except ε α) (appendOk : Bool) :
    ExecOutcome ε α × ExecEffects :=
  match env.state with
  | CircuitState.opened =>
      (ExecOutcome.circuitOpen (mkCircuitOpenError env.circuitId),
       { blockedRecorded := env.metricsConfigured
         callMetric := none
         appended := none
         fnInvoked := false
         writeErrorReported := false })
  | CircuitState.closed =>
      match fn with
      | Except.ok v =>
          let r := recordCallResult env CallResult.success appendOk
          (ExecOutcome.value v,
           { blockedRecorded := false
             callMetric := r.1
             appended := r.2.1
             fnInvoked := true
             writeErrorReported := r.2.2 })
      | Except.error e =>
          let r := recordCallResult env CallResult.failure appendOk
          (ExecOutcome.userError e,
           { blockedRecorded := false
             callMetric := r.1
             appended := r.2.1
             fnInvoked := true
             writeErrorReported := r.2.2 })

/-! ## Leader policy handlers (from `circuit-breaker.ts`)

`handleEventsAdded`, `onHealthCheckSuccess` and `onHealthCheckFailure` are the
three code paths that may append to the circuit-state log.  Each is embedded
as a function from its read context to an effect record; the pluggable
failure-detection strategy (`this.breaker.shouldOpenCircuit`) is a function
parameter. -/

/-- The orchestrator context read by the leader policy handlers. -/
structure PolicyCtx where
  /-- `elector.isLeader`. -/
  isLeader : Bool
  /-- `this.state` (the state store's cached state). -/
  state : CircuitState
  /-- `circuitStateStore.getLastStateChangeTimestamp()`. -/
  lastStateChangeTimestamp : Nat
  /-- `health.idleProbeIntervalMs` (`none` when not set; `some 0` is falsy in
  the source's truthiness tests, matching JavaScript). -/
  idleProbeIntervalMs : Option Nat
deriving DecidableEq, Repr

/-- Truthiness of `this.health.idleProbeIntervalMs` in the source's
`if (this.health.idleProbeIntervalMs)` tests. -/
def idleConfigured (ctx : PolicyCtx) : Bool :=
  match ctx.idleProbeIntervalMs with
  | none => false
  | some n => n != 0

/-- Effects of one leader policy handler invocation. -/
structure PolicyEffects where
  /-- The event list the caller-supplied strategy was invoked on, when it was
  invoked at all. -/
  strategyCalledOn : Option (List CallResultEvent)
  /-- States appended to the circuit-state log (`circuitStateStore.setState`),
  in order. -/
  stateWrites : List CircuitState
  /-- `runRecoveryHealthChecks` restarted the scheduler. -/
  recoveryStarted : Bool
  /-- `rescheduleIdleHealthChecks` restarted the scheduler. -/
  idleRescheduled : Bool
deriving DecidableEq, Repr

/-- The no-effect record (handler returned early). -/
def PolicyEffects.none : PolicyEffects :=
  { strategyCalledOn := Option.none
    stateWrites := []
    recoveryStarted := false
    idleRescheduled := false }

/-- `CircuitBreaker.handleEventsAdded`: invoked with the call-result store's
full window whenever new events arrive.  Returns early unless this instance is
leader and the circuit is not OPEN; otherwise filters the window to events
with `timestamp >= lastStateChangeTimestamp`, consults the private
`shouldOpenCircuit` wrapper (which skips the strategy entirely on an empty
slice), and either writes an OPEN transition and starts recovery probing or
reschedules idle probing.  `strategy` embeds `this.breaker.shouldOpenCircuit`. -/
def handleEventsAdded (strategy : List CallResultEvent → Bool)
    (ctx : PolicyCtx) (events : List CallResultEvent) : PolicyEffects :=
  if !ctx.isLeader || ctx.state == CircuitState.opened then
    PolicyEffects.none
  else
    let recentEvents :=
      events.filter (fun e => ctx.lastStateChangeTimestamp ≤ e.timestamp)
    if recentEvents.isEmpty then
      -- `shouldOpenCircuit` returns false without invoking the strategy
      if idleConfigured ctx then
        { PolicyEffects.none with idleRescheduled := true }
      else
        PolicyEffects.none
    else if strategy recentEvents then
      { strategyCalledOn := some recentEvents
        stateWrites := [CircuitState.opened]
        recoveryStarted := true
        idleRescheduled := false }
    else if idleConfigured ctx then
      { strategyCalledOn := some recentEvents
        stateWrites := []
        recoveryStarted := false
        idleRescheduled := true }
    else
      { PolicyEffects.none with strategyCalledOn := some recentEvents }

/-- `CircuitBreaker.onHealthCheckSuccess`: returns early unless leader; a
successful RECOVERY probe writes a CLOSED transition and reschedules idle
probing. -/
def onHealthCheckSuccess (isLeader : Bool) (checkType : HealthCheckType)
    (idleConf : Bool) : PolicyEffects :=
  if !isLeader then
    PolicyEffects.none
  else if checkType == HealthCheckType.recovery then
    { strategyCalledOn := Option.none
      stateWrites := [CircuitState.closed]
      recoveryStarted := false
      idleRescheduled := idleConf }
  else
    PolicyEffects.none

/-- `CircuitBreaker.onHealthCheckFailure`: returns early unless leader; a
failed IDLE probe writes an OPEN transition and starts recovery probing. -/
def onHealthCheckFailure (isLeader : Bool) (checkType : HealthCheckType) :
    PolicyEffects :=
  if !isLeader then
    PolicyEffects.none
  else if checkType == HealthCheckType.idle then
    { strategyCalledOn := Option.none
      stateWrites := [CircuitState.opened]
      recoveryStarted := true
      idleRescheduled := false }
  else
    PolicyEffects.none

/-! ## Call-result store window (from `CallResultStore.ts`)

The in-memory window is a list of `CallResultEvent`s, oldest first.  Redis
stream semantics give the two embedded operations their inputs: `xrevrange +
- COUNT maxLen` returns the newest `maxLen` entries of the log newest-first
(then `toReversed` restores oldest-first order), and the tailing reader only
delivers entries whose id is greater than the window's last id. -/

/-- `CallResultStore.getInitialEvents`: load the up-to-`maxLen` most recent
log entries, oldest first.  `log` is the full call-result log in id order. -/
def getInitialEvents (maxLen : Nat) (log : List CallResultEvent) :
    List CallResultEvent :=
  log.drop (log.length - maxLen)

/-- `CallResultStore.pushEvents`: append the tailed batch to the window and
trim the oldest entries so that at most `maxLen` remain
(`splice(0, length - maxLen)`). -/
def pushEvents (maxLen : Nat) (stored incoming : List CallResultEvent) :
    List CallResultEvent :=
  let all := stored ++ incoming
  if maxLen < all.length then all.drop (all.length - maxLen) else all

/-- Strictly increasing log positions, oldest first. -/
def idOrdered (events : List CallResultEvent) : Prop :=
  events.Pairwise (fun a b => a.id < b.id)

/-! ## Lifecycle manager (from `abstract-lifecycle-manager.ts`)

`AbstractLifecycleManager<TConfig>` is a five-phase state machine.  A call to
`start(config)` or `stop()` dispatches on the phase observed at entry; the
`STARTING` and `STOPPING` phases hold a pending promise that the call may
join or await.  One call is embedded as a function of the entry phase, the
config, and an oracle giving the outcomes of the asynchronous operations the
call may await: the `startInternal` / `stopInternal` run it performs itself,
and the in-flight start / stop promise it joins.  Configs are compared by
deep structural equality, embedded as decidable equality. -/

/-- `LifecycleState` plus the data each phase carries (`ManagerState`). -/
inductive MState (C : Type) where
  | inactive
  | starting (config : C)
  | operational (config : C)
  | stopping
  | unrecoverable
deriving DecidableEq, Repr

/-- The distinguishable errors a lifecycle call can reject with. -/
inductive LcError where
  /-- "… is in an unrecoverable state after a previous failure …". -/
  | unrecoverableErr
  /-- "Cannot start with a new configuration while a start operation is
  already in progress." -/
  | busyErr
  /-- "Cannot start with a new configuration while the process is running." -/
  | runningErr
  /-- A rejection of `startInternal`, propagated unchanged. -/
  | startInternalErr
  /-- A rejection of `stopInternal`, propagated unchanged. -/
  | stopInternalErr
deriving DecidableEq, Repr

/-- Outcomes of the asynchronous operations a single lifecycle call may
await: its own `startInternal(config)` / `stopInternal()` run, and the
in-flight start / stop promise found pending at entry. -/
structure LcOracle where
  startInternalOk : Bool
  stopInternalOk : Bool
  inflightStartOk : Bool
  pendingStopOk : Bool
deriving DecidableEq, Repr

/-- Result of one completed `start` or `stop` call: the manager state after
the call settles, the error it rejected with (`none` = resolved), and whether
this call itself ran `startInternal` / `stopInternal`. -/
structure LcOutcome (C : Type) where
  final : MState C
  err : Option LcError
  ranStart : Bool
  ranStop : Bool
deriving DecidableEq, Repr

/-- The `INACTIVE` branch of `start`: move to `STARTING`, run
`startInternal(config)`, then `OPERATIONAL` on success or `UNRECOVERABLE` on
rejection (the rejection is re-thrown). -/
def startRun {C : Type} (config : C) (o : LcOracle) : LcOutcome C :=
  if o.startInternalOk then
    { final := MState.operational config, err := none
      ranStart := true, ranStop := false }
  else
    { final := MState.unrecoverable, err := some LcError.startInternalErr
      ranStart := true, ranStop := false }

/-- The `OPERATIONAL` branch of `stop`: move to `STOPPING`, run
`stopInternal()`, then `INACTIVE` on success or `UNRECOVERABLE` on rejection. -/
def stopRun {C : Type} (o : LcOracle) : LcOutcome C :=
  if o.stopInternalOk then
    { final := MState.inactive, err := none
      ranStart := false, ranStop := true }
  else
    { final := MState.unrecoverable, err := some LcError.stopInternalErr
      ranStart := false, ranStop := true }

/-- `AbstractLifecycleManager.start(config)`, dispatching on the phase at
entry.  `UNRECOVERABLE` throws; `STOPPING` awaits the pending stop promise
(whose rejection propagates, the stop's own catch having already moved the
phase to `UNRECOVERABLE`) and then recurses from `INACTIVE`; `STARTING` joins
the in-flight start when the config is deep-equal and throws "busy" otherwise;
`OPERATIONAL` is a no-op on a deep-equal config and throws "running"
otherwise; `INACTIVE` performs the actual start. -/
def startCall {C : Type} [DecidableEq C] (s : MState C) (config : C)
    (o : LcOracle) : LcOutcome C :=
  match s with
  | MState.unrecoverable =>
      { final := MState.unrecoverable, err := some LcError.unrecoverableErr
        ranStart := false, ranStop := false }
  | MState.stopping =>
      if o.pendingStopOk then
        startRun config o
      else
        { final := MState.unrecoverable, err := some LcError.stopInternalErr
          ranStart := false, ranStop := false }
  | MState.starting config' =>
      if config = config' then
        if o.inflightStartOk then
          { final := MState.operational config', err := none
            ranStart := false, ranStop := false }
        else
          { final := MState.unrecoverable
            err := some LcError.startInternalErr
            ranStart := false, ranStop := false }
      else
        { final := MState.starting config', err := some LcError.busyErr
          ranStart := false, ranStop := false }
  | MState.operational config' =>
      if config = config' then
        { final := MState.operational config', err := none
          ranStart := false, ranStop := false }
      else
        { final := MState.operational config', err := some LcError.runningErr
          ranStart := false, ranStop := false }
  | MState.inactive => startRun config o

/-- `AbstractLifecycleManager.stop()`, dispatching on the phase at entry.
`UNRECOVERABLE` throws; `STARTING` awaits the in-flight start (whose rejection
propagates) and then stops from `OPERATIONAL`; `STOPPING` joins the pending
stop; `INACTIVE` is a no-op; `OPERATIONAL` performs the actual stop. -/
def stopCall {C : Type} (s : MState C) (o : LcOracle) : LcOutcome C :=
  match s with
  | MState.unrecoverable =>
      { final := MState.unrecoverable, err := some LcError.unrecoverableErr
        ranStart := false, ranStop := false }
  | MState.starting _ =>
      if o.inflightStartOk then
        stopRun o
      else
        { final := MState.unrecoverable, err := some LcError.startInternalErr
          ranStart := false, ranStop := false }
  | MState.stopping =>
      if o.pendingStopOk then
        { final := MState.inactive, err := none
          ranStart := false, ranStop := false }
      else
        { final := MState.unrecoverable, err := some LcError.stopInternalErr
          ranStart := false, ranStop := false }
  | MState.inactive =>
      { final := MState.inactive, err := none
        ranStart := false, ranStop := false }
  | MState.operational _ => stopRun o

/-- Spec-side predicate, following the claim's words (for comparison with the
embedded `startCall`): `start(config)` is claimed to raise exactly when it is
called with a config not structurally equal to the in-flight one while
STARTING ("busy"), or with a different config while OPERATIONAL ("running"),
or the manager is UNRECOVERABLE, or the `startInternal` execution this call
performs or joins rejects. -/
def claimedStartError {C : Type} [DecidableEq C] (s : MState C) (config : C)
    (o : LcOracle) : Bool :=
  match s with
  | MState.starting config' => config != config' || !o.inflightStartOk
  | MState.operational config' => config != config'
  | MState.unrecoverable => true
  | MState.inactive => !o.startInternalOk
  | MState.stopping => o.pendingStopOk && !o.startInternalOk

/-! ## Health-check scheduler (from `health-check-manager.ts`)

`startHealthCheckLoop` runs `attempt := 1` and then, while not aborted:
consult `getDelayMs(attempt)`, sleep that long (cooperatively cancellable),
run `runCheck`, increment `attempt` by one.  The loop is embedded as the
trace of probe attempts it performs; `fuel` is the number of iterations that
complete before the abort signal stops the loop, `dur` gives each
`runCheck`'s duration, and times are absolute milliseconds. -/

/-- One completed loop iteration: the attempt counter, the delay value
consulted for it, and the absolute time the probe starts. -/
structure ProbeEvent where
  attempt : Nat
  delayMs : Nat
  startAt : Nat
deriving DecidableEq, Repr

/-- Trace of `startHealthCheckLoop` starting at attempt counter `attempt` and
absolute time `now`, performing `fuel` iterations before the abort signal is
observed. -/
def loopEvents (getDelayMs dur : Nat → Nat) :
    Nat → Nat → Nat → List ProbeEvent
  | 0, _, _ => []
  | fuel + 1, attempt, now =>
      let d := getDelayMs attempt
      { attempt := attempt, delayMs := d, startAt := now + d } ::
        loopEvents getDelayMs dur fuel (attempt + 1) (now + d + dur attempt)

/-- The absolute time at which the loop terminates (after `fuel` completed
iterations, the abort is observed during the next delay or loop test). -/
def loopEndTime (getDelayMs dur : Nat → Nat) :
    Nat → Nat → Nat → Nat
  | 0, _, now => now
  | fuel + 1, attempt, now =>
      loopEndTime getDelayMs dur fuel (attempt + 1)
        (now + getDelayMs attempt + dur attempt)

/-- `HealthCheckManager.restart`: `stopInternal` aborts the running loop and
awaits its promise, so the old loop has fully terminated before
`startInternal` launches the new loop with a fresh `attempt = 1` at time
`t1`. -/
def restartEvents (f g dur : Nat → Nat) (k m t0 t1 : Nat) :
    List ProbeEvent :=
  loopEvents f dur k 1 t0 ++ loopEvents g dur m 1 t1

/-! ## Theorems -/

/-- C1: every `execute(fn)` call made while the cached circuit state is
OPEN records a blocked-request metric exactly when a metrics sink is
configured, throws a `CircuitOpenError` carrying the circuit's id, and never
invokes `fn` (nor records a call metric or log append). -/
theorem execute_blocking_shortcircuits (ε α : Type) (env : ExecEnv)
    (fn : Except ε α) (appendOk : Bool)
    (h : env.state = CircuitState.opened) :
    (execute env fn appendOk).1 =
      ExecOutcome.circuitOpen (mkCircuitOpenError env.circuitId) ∧
    (mkCircuitOpenError env.circuitId).circuitId = env.circuitId ∧
    (execute env fn appendOk).2.blockedRecorded = env.metricsConfigured ∧
    (execute env fn appendOk).2.fnInvoked = false ∧
    (execute env fn appendOk).2.callMetric = none ∧
    (execute env fn appendOk).2.appended = none := by
  obtain ⟨cid, st, mc⟩ := env
  simp only [ExecEnv.state] at h
  subst h
  simp [execute, mkCircuitOpenError]

/-- Witness for C1 at a concrete blocked call. -/
theorem execute_blocking_shortcircuits_witness :
    (execute (ε := Unit) (α := Unit)
        { circuitId := "c", state := CircuitState.opened,
          metricsConfigured := true } (Except.ok ()) true).1 =
      ExecOutcome.circuitOpen (mkCircuitOpenError "c") ∧
    (mkCircuitOpenError "c").circuitId = "c" ∧
    (execute (ε := Unit) (α := Unit)
        { circuitId := "c", state := CircuitState.opened,
          metricsConfigured := true } (Except.ok ()) true).2.blockedRecorded
      = true ∧
    (execute (ε := Unit) (α := Unit)
        { circuitId := "c", state := CircuitState.opened,
          metricsConfigured := true } (Except.ok ()) true).2.fnInvoked
      = false ∧
    (execute (ε := Unit) (α := Unit)
        { circuitId := "c", state := CircuitState.opened,
          metricsConfigured := true } (Except.ok ()) true).2.callMetric
      = none ∧
    (execute (ε := Unit) (α := Unit)
        { circuitId := "c", state := CircuitState.opened,
          metricsConfigured := true } (Except.ok ()) true).2.appended
      = none :=
  execute_blocking_shortcircuits Unit Unit
    { circuitId := "c", state := CircuitState.opened,
      metricsConfigured := true } (Except.ok ()) true rfl

/-- C3: every `execute(fn)` call made while the circuit state is CLOSED
invokes `fn`; if `fn` resolves with `v`, `execute` records a SUCCESS outcome
(call metric when a sink is configured, plus a call-result log append) and
returns `v`; if `fn` rejects with `e`, it records a FAILURE outcome and
re-raises the identical error `e`. -/
theorem execute_passing_records_outcome (ε α : Type) (env : ExecEnv)
    (fn : Except ε α) (appendOk : Bool)
    (h : env.state = CircuitState.closed) :
    (execute env fn appendOk).2.fnInvoked = true ∧
    (∀ v : α, fn = Except.ok v →
      (execute env fn appendOk).1 = ExecOutcome.value v ∧
      (execute env fn appendOk).2.appended = some CallResult.success ∧
      (execute env fn appendOk).2.callMetric =
        (if env.metricsConfigured then some CallResult.success else none)) ∧
    (∀ e : ε, fn = Except.error e →
      (execute env fn appendOk).1 = ExecOutcome.userError e ∧
      (execute env fn appendOk).2.appended = some CallResult.failure ∧
      (execute env fn appendOk).2.callMetric =
        (if env.metricsConfigured then some CallResult.failure else none)) := by
  obtain ⟨cid, st, mc⟩ := env
  simp only [ExecEnv.state] at h
  subst h
  cases fn with
  | ok v =>
      refine ⟨rfl, ?_, ?_⟩
      · intro w hw
        cases hw
        simp [execute, recordCallResult, storeCallResultEffect]
      · intro e he
        cases he
  | error e =>
      refine ⟨rfl, ?_, ?_⟩
      · intro w hw
        cases hw
      · intro e' he
        cases he
        simp [execute, recordCallResult, storeCallResultEffect]

/-- Witness for C3 at a concrete successful and a concrete failed call. -/
theorem execute_passing_records_outcome_witness :
    ((execute (ε := String) (α := Nat)
        { circuitId := "c", state := CircuitState.closed,
          metricsConfigured := true } (Except.ok 7) true).1 =
      ExecOutcome.value 7 ∧
     (execute (ε := String) (α := Nat)
        { circuitId := "c", state := CircuitState.closed,
          metricsConfigured := true } (Except.ok 7) true).2.appended =
      some CallResult.success ∧
     (execute (ε := String) (α := Nat)
        { circuitId := "c", state := CircuitState.closed,
          metricsConfigured := true } (Except.ok 7) true).2.callMetric =
      (if true then some CallResult.success else none)) ∧
    ((execute (ε := String) (α := Nat)
        { circuitId := "c", state := CircuitState.closed,
          metricsConfigured := true } (Except.error "boom") true).1 =
      ExecOutcome.userError "boom" ∧
     (execute (ε := String) (α := Nat)
        { circuitId := "c", state := CircuitState.closed,
          metricsConfigured := true } (Except.error "boom") true).2.appended =
      some CallResult.failure ∧
     (execute (ε := String) (α := Nat)
        { circuitId := "c", state := CircuitState.closed,
          metricsConfigured := true } (Except.error "boom") true).2.callMetric =
      (if true then some CallResult.failure else none)) :=
  ⟨(execute_passing_records_outcome String Nat
      { circuitId := "c", state := CircuitState.closed,
        metricsConfigured := true } (Except.ok 7) true rfl).2.1 7 rfl,
   (execute_passing_records_outcome String Nat
      { circuitId := "c", state := CircuitState.closed,
        metricsConfigured := true } (Except.error "boom") true rfl).2.2
     "boom" rfl⟩

/-- C9: the call-result append is fire-and-forget: `execute`'s settled result
does not depend on the fate of the append, a successful call still returns
its value when the append fails, and a failed append is reported through the
store's write-error callback. -/
theorem execute_append_fire_and_forget (ε α : Type) (env : ExecEnv)
    (fn : Except ε α)
    (h : env.state = CircuitState.closed) :
    ((execute env fn false).1 = (execute env fn true).1) ∧
    (∀ v : α, fn = Except.ok v →
      (execute env fn false).1 = ExecOutcome.value v) ∧
    (execute env fn false).2.writeErrorReported = true ∧
    (execute env fn true).2.writeErrorReported = false := by
  obtain ⟨cid, st, mc⟩ := env
  simp only [ExecEnv.state] at h
  subst h
  cases fn with
  | ok v =>
      refine ⟨rfl, ?_, ?_, ?_⟩
      · intro w hw
        cases hw
        rfl
      · simp [execute, recordCallResult, storeCallResultEffect]
      · simp [execute, recordCallResult, storeCallResultEffect]
  | error e =>
      refine ⟨rfl, ?_, ?_, ?_⟩
      · intro w hw
        cases hw
      · simp [execute, recordCallResult, storeCallResultEffect]
      · simp [execute, recordCallResult, storeCallResultEffect]

/-- Witness for C9 at a concrete call whose append fails. -/
theorem execute_append_fire_and_forget_witness :
    ((execute (ε := Unit) (α := Nat)
        { circuitId := "c", state := CircuitState.closed,
          metricsConfigured := false } (Except.ok 3) false).1 =
      (execute (ε := Unit) (α := Nat)
        { circuitId := "c", state := CircuitState.closed,
          metricsConfigured := false } (Except.ok 3) true).1) ∧
    (execute (ε := Unit) (α := Nat)
        { circuitId := "c", state := CircuitState.closed,
          metricsConfigured := false } (Except.ok 3) false).1 =
      ExecOutcome.value 3 ∧
    (execute (ε := Unit) (α := Nat)
        { circuitId := "c", state := CircuitState.closed,
          metricsConfigured := false } (Except.ok 3) false).2.writeErrorReported
      = true ∧
    (execute (ε := Unit) (α := Nat)
        { circuitId := "c", state := CircuitState.closed,
          metricsConfigured := false } (Except.ok 3) true).2.writeErrorReported
      = false := by
  have h := execute_append_fire_and_forget Unit Nat
    { circuitId := "c", state := CircuitState.closed,
      metricsConfigured := false } (Except.ok 3) rfl
  exact ⟨h.1, h.2.1 3 rfl, h.2.2.1, h.2.2.2⟩

/-- Helper: when the instance is not leader or the cached state is OPEN,
`handleEventsAdded` returns early with no effect. -/
theorem handleEventsAdded_guard (strategy : List CallResultEvent → Bool)
    (ctx : PolicyCtx) (events : List CallResultEvent)
    (h : ctx.isLeader = false ∨ ctx.state = CircuitState.opened) :
    handleEventsAdded strategy ctx events = PolicyEffects.none := by
  obtain ⟨lead, st, ts, idle⟩ := ctx
  simp only [PolicyCtx.isLeader, PolicyCtx.state] at h
  cases lead <;> cases st
  · simp [handleEventsAdded]
  · simp [handleEventsAdded]
  · rcases h with h | h <;> exact absurd h (by simp)
  · simp [handleEventsAdded]

/-- C2: whenever `handleEventsAdded` invokes the failure-detection strategy
it does so exactly on the slice of the window whose timestamps are `≥` the
state store's last state-change timestamp; and when the instance is not
leader or the cached state is OPEN, the handler performs no state-log write
and no strategy invocation (it has no effect at all). -/
theorem handleEventsAdded_filter_and_guards
    (strategy : List CallResultEvent → Bool) (ctx : PolicyCtx)
    (events : List CallResultEvent) :
    (∀ l, (handleEventsAdded strategy ctx events).strategyCalledOn = some l →
      l = events.filter
            (fun e => ctx.lastStateChangeTimestamp ≤ e.timestamp) ∧
      ∀ e ∈ l, ctx.lastStateChangeTimestamp ≤ e.timestamp) ∧
    ((ctx.isLeader = false ∨ ctx.state = CircuitState.opened) →
      (handleEventsAdded strategy ctx events).stateWrites = [] ∧
      (handleEventsAdded strategy ctx events).strategyCalledOn = none) := by
  constructor
  · intro l hl
    simp only [handleEventsAdded] at hl
    split at hl
    · exact absurd hl (by simp [PolicyEffects.none])
    · split at hl
      · split at hl
        · exact absurd hl (by simp [PolicyEffects.none])
        · exact absurd hl (by simp [PolicyEffects.none])
      · have hsome :
            l = events.filter
              (fun e => ctx.lastStateChangeTimestamp ≤ e.timestamp) := by
          split at hl
          · exact (Option.some_inj.mp hl).symm
          · split at hl
            · exact (Option.some_inj.mp hl).symm
            · exact (Option.some_inj.mp hl).symm
        refine ⟨hsome, ?_⟩
        intro e he'
        rw [hsome] at he'
        simpa using (List.mem_filter.mp he').2
  · intro hguard
    rw [handleEventsAdded_guard _ _ _ hguard]
    exact ⟨rfl, rfl⟩

/-- Witness for C2: a leader in the CLOSED state with a mixed-age window
feeds the strategy exactly the recent slice; a non-leader has no effect. -/
theorem handleEventsAdded_filter_and_guards_witness :
    ([(⟨3, CallResult.failure, 10⟩ : CallResultEvent)] =
      [(⟨2, CallResult.failure, 4⟩ : CallResultEvent),
       ⟨3, CallResult.failure, 10⟩].filter (fun e => 5 ≤ e.timestamp)) ∧
    (handleEventsAdded (fun _ => true)
        { isLeader := false, state := CircuitState.closed,
          lastStateChangeTimestamp := 5, idleProbeIntervalMs := none }
        [⟨2, CallResult.failure, 4⟩, ⟨3, CallResult.failure, 10⟩]).stateWrites
      = [] ∧
    (handleEventsAdded (fun _ => true)
        { isLeader := false, state := CircuitState.closed,
          lastStateChangeTimestamp := 5, idleProbeIntervalMs := none }
        [⟨2, CallResult.failure, 4⟩,
         ⟨3, CallResult.failure, 10⟩]).strategyCalledOn = none :=
  ⟨((handleEventsAdded_filter_and_guards (fun _ => true)
      { isLeader := true, state := CircuitState.closed,
        lastStateChangeTimestamp := 5, idleProbeIntervalMs := none }
      [⟨2, CallResult.failure, 4⟩, ⟨3, CallResult.failure, 10⟩]).1
    [⟨3, CallResult.failure, 10⟩] (by decide)).1,
   ((handleEventsAdded_filter_and_guards (fun _ => true)
      { isLeader := false, state := CircuitState.closed,
        lastStateChangeTimestamp := 5, idleProbeIntervalMs := none }
      [⟨2, CallResult.failure, 4⟩, ⟨3, CallResult.failure, 10⟩]).2
     (Or.inl rfl)).1,
   ((handleEventsAdded_filter_and_guards (fun _ => true)
      { isLeader := false, state := CircuitState.closed,
        lastStateChangeTimestamp := 5, idleProbeIntervalMs := none }
      [⟨2, CallResult.failure, 4⟩, ⟨3, CallResult.failure, 10⟩]).2
     (Or.inl rfl)).2⟩

/-- C10: if the timestamp-filtered slice is empty, the caller-supplied
strategy is not invoked and no OPEN transition is written; and whenever the
strategy is invoked, its argument is non-empty. -/
theorem handleEventsAdded_empty_slice
    (strategy : List CallResultEvent → Bool) (ctx : PolicyCtx)
    (events : List CallResultEvent) :
    (events.filter (fun e => ctx.lastStateChangeTimestamp ≤ e.timestamp) = []
      → (handleEventsAdded strategy ctx events).strategyCalledOn = none ∧
        (handleEventsAdded strategy ctx events).stateWrites = []) ∧
    (∀ l, (handleEventsAdded strategy ctx events).strategyCalledOn = some l →
      l ≠ []) := by
  constructor
  · intro hempty
    simp only [handleEventsAdded]
    split
    · exact ⟨rfl, rfl⟩
    · rw [if_pos (by simp [hempty])]
      split <;> exact ⟨rfl, rfl⟩
  · intro l hl
    simp only [handleEventsAdded] at hl
    split at hl
    · exact absurd hl (by simp [PolicyEffects.none])
    · split at hl
      · split at hl
        · exact absurd hl (by simp [PolicyEffects.none])
        · exact absurd hl (by simp [PolicyEffects.none])
      · rename_i hne
        have hne' :
            events.filter
              (fun e => ctx.lastStateChangeTimestamp ≤ e.timestamp) ≠ [] := by
          simpa [List.isEmpty_iff] using hne
        split at hl
        · cases Option.some_inj.mp hl
          exact hne'
        · split at hl
          · cases Option.some_inj.mp hl
            exact hne'
          · cases Option.some_inj.mp hl
            exact hne'

/-- Witness for C10: a window consisting entirely of events older than the
last state change neither consults the strategy nor opens the circuit. -/
theorem handleEventsAdded_empty_slice_witness :
    (handleEventsAdded (fun _ => true)
      { isLeader := true, state := CircuitState.closed,
        lastStateChangeTimestamp := 100, idleProbeIntervalMs := some 30 }
      [⟨1, CallResult.failure, 4⟩,
       ⟨2, CallResult.failure, 9⟩]).strategyCalledOn = none ∧
    (handleEventsAdded (fun _ => true)
      { isLeader := true, state := CircuitState.closed,
        lastStateChangeTimestamp := 100, idleProbeIntervalMs := some 30 }
      [⟨1, CallResult.failure, 4⟩,
       ⟨2, CallResult.failure, 9⟩]).stateWrites = [] :=
  (handleEventsAdded_empty_slice (fun _ => true)
    { isLeader := true, state := CircuitState.closed,
      lastStateChangeTimestamp := 100, idleProbeIntervalMs := some 30 }
    [⟨1, CallResult.failure, 4⟩, ⟨2, CallResult.failure, 9⟩]).1 (by decide)

/-- C7: a non-leader never appends to the circuit-state log — every code
path that writes a state transition (strategy verdict in
`handleEventsAdded`, failed idle probe in `onHealthCheckFailure`, successful
recovery probe in `onHealthCheckSuccess`) writes only when the elector
reports leadership. -/
theorem state_log_writes_are_leader_only
    (strategy : List CallResultEvent → Bool) (ctx : PolicyCtx)
    (events : List CallResultEvent) (b idleConf : Bool)
    (t : HealthCheckType) :
    ((handleEventsAdded strategy ctx events).stateWrites ≠ [] →
      ctx.isLeader = true) ∧
    ((onHealthCheckSuccess b t idleConf).stateWrites ≠ [] → b = true) ∧
    ((onHealthCheckFailure b t).stateWrites ≠ [] → b = true) := by
  refine ⟨?_, ?_, ?_⟩
  · intro hw
    by_contra hL
    have hL' : ctx.isLeader = false := by
      cases h : ctx.isLeader
      · rfl
      · exact absurd h hL
    rw [handleEventsAdded_guard strategy ctx events (Or.inl hL')] at hw
    exact hw rfl
  · intro hw
    cases b
    · exact absurd (by simp [onHealthCheckSuccess, PolicyEffects.none]) hw
    · rfl
  · intro hw
    cases b
    · exact absurd (by simp [onHealthCheckFailure, PolicyEffects.none]) hw
    · rfl

/-- Witness for C7: concrete writing paths are leader-only. -/
theorem state_log_writes_are_leader_only_witness :
    (true : Bool) = true ∧ (true : Bool) = true ∧ (true : Bool) = true :=
  ⟨(state_log_writes_are_leader_only (fun _ => true)
      { isLeader := true, state := CircuitState.closed,
        lastStateChangeTimestamp := 0, idleProbeIntervalMs := none }
      [⟨1, CallResult.failure, 3⟩] true false HealthCheckType.recovery).1
     (by decide),
   (state_log_writes_are_leader_only (fun _ => true)
      { isLeader := true, state := CircuitState.closed,
        lastStateChangeTimestamp := 0, idleProbeIntervalMs := none }
      [⟨1, CallResult.failure, 3⟩] true false HealthCheckType.recovery).2.1
     (by decide),
   (state_log_writes_are_leader_only (fun _ => true)
      { isLeader := true, state := CircuitState.closed,
        lastStateChangeTimestamp := 0, idleProbeIntervalMs := none }
      [⟨1, CallResult.failure, 3⟩] true false HealthCheckType.idle).2.2
     (by decide)⟩

/-- C6: the call-result store's window invariant — after the initial load and
after every pushed batch, the window holds at most `maxLen` events, in
strictly increasing log-position order.  The order hypotheses come from the
Redis stream: the log itself is ordered, and the tailing reader only delivers
entries positioned after the window's last entry. -/
theorem window_invariant (maxLen : Nat)
    (log stored incoming : List CallResultEvent)
    (hlog : idOrdered log) (hpush : idOrdered (stored ++ incoming)) :
    (getInitialEvents maxLen log).length ≤ maxLen ∧
    idOrdered (getInitialEvents maxLen log) ∧
    (pushEvents maxLen stored incoming).length ≤ maxLen ∧
    idOrdered (pushEvents maxLen stored incoming) := by
  refine ⟨?_, ?_, ?_, ?_⟩
  · simp only [getInitialEvents, List.length_drop]
    omega
  · exact List.Pairwise.sublist (List.drop_sublist _ _) hlog
  · simp only [pushEvents]
    split <;> rename_i h <;>
      simp only [List.length_drop, List.length_append] at h ⊢ <;> omega
  · simp only [pushEvents]
    split
    · exact List.Pairwise.sublist (List.drop_sublist _ _) hpush
    · exact hpush

/-- Witness for C6 at a concrete log and batch. -/
theorem window_invariant_witness :
    (getInitialEvents 2
      [(⟨1, CallResult.success, 3⟩ : CallResultEvent),
       ⟨2, CallResult.failure, 5⟩, ⟨4, CallResult.success, 9⟩]).length ≤ 2 ∧
    idOrdered (getInitialEvents 2
      [(⟨1, CallResult.success, 3⟩ : CallResultEvent),
       ⟨2, CallResult.failure, 5⟩, ⟨4, CallResult.success, 9⟩]) ∧
    (pushEvents 2 [(⟨5, CallResult.failure, 11⟩ : CallResultEvent)]
      [⟨6, CallResult.success, 12⟩, ⟨8, CallResult.success, 14⟩]).length
      ≤ 2 ∧
    idOrdered (pushEvents 2 [(⟨5, CallResult.failure, 11⟩ : CallResultEvent)]
      [⟨6, CallResult.success, 12⟩, ⟨8, CallResult.success, 14⟩]) :=
  window_invariant 2
    [⟨1, CallResult.success, 3⟩, ⟨2, CallResult.failure, 5⟩,
     ⟨4, CallResult.success, 9⟩]
    [⟨5, CallResult.failure, 11⟩]
    [⟨6, CallResult.success, 12⟩, ⟨8, CallResult.success, 14⟩]
    (by simp [idOrdered]) (by simp [idOrdered])

/-- C4: lifecycle idempotence — a second `start` with a structurally equal
config changes nothing (same final state, no second `startInternal` run, and
no new error when the first call succeeded); from INACTIVE the pair runs
`startInternal` exactly once; a second `stop` likewise changes nothing; and
`stop` while INACTIVE (including before any start) is a no-op that
succeeds. -/
theorem lifecycle_idempotent (C : Type) [DecidableEq C] (s : MState C) (c : C)
    (o1 o2 o3 o4 : LcOracle) :
    ((startCall (startCall s c o1).final c o2).final =
        (startCall s c o1).final ∧
     (startCall (startCall s c o1).final c o2).ranStart = false ∧
     (startCall (startCall s c o1).final c o2).ranStop = false ∧
     ((startCall s c o1).err = none →
        (startCall (startCall s c o1).final c o2).err = none)) ∧
    (startCall (MState.inactive : MState C) c o1).ranStart = true ∧
    ((stopCall (stopCall s o3).final o4).final = (stopCall s o3).final ∧
     (stopCall (stopCall s o3).final o4).ranStart = false ∧
     (stopCall (stopCall s o3).final o4).ranStop = false ∧
     ((stopCall s o3).err = none →
        (stopCall (stopCall s o3).final o4).err = none)) ∧
    stopCall (MState.inactive : MState C) o3 =
      { final := MState.inactive, err := none,
        ranStart := false, ranStop := false } := by
  refine ⟨?_, ?_, ?_, ?_⟩
  · cases s with
    | unrecoverable => simp [startCall]
    | stopping =>
        by_cases hp : o1.pendingStopOk = true <;>
          by_cases hs : o1.startInternalOk = true <;>
          simp [startCall, startRun, hp, hs]
    | starting c' =>
        by_cases hc : c = c' <;> by_cases hi : o1.inflightStartOk = true <;>
          simp [startCall, hc, hi]
    | operational c' => by_cases hc : c = c' <;> simp [startCall, hc]
    | inactive =>
        by_cases hs : o1.startInternalOk = true <;>
          simp [startCall, startRun, hs]
  · by_cases hs : o1.startInternalOk = true <;> simp [startCall, startRun, hs]
  · cases s with
    | unrecoverable => simp [stopCall]
    | stopping =>
        by_cases hp : o3.pendingStopOk = true <;> simp [stopCall, hp]
    | starting c' =>
        by_cases hi : o3.inflightStartOk = true <;>
          by_cases ho : o3.stopInternalOk = true <;>
          simp [stopCall, stopRun, hi, ho]
    | operational c' =>
        by_cases ho : o3.stopInternalOk = true <;>
          simp [stopCall, stopRun, ho]
    | inactive => simp [stopCall]
  · simp [stopCall]

/-- Witness for C4 at concrete runs (config type `Nat`, all internal
operations succeeding). -/
theorem lifecycle_idempotent_witness :
    ((startCall
        (startCall (MState.inactive : MState Nat) 1
          { startInternalOk := true, stopInternalOk := true,
            inflightStartOk := true, pendingStopOk := true }).final 1
        { startInternalOk := true, stopInternalOk := true,
          inflightStartOk := true, pendingStopOk := true }).final =
      (startCall (MState.inactive : MState Nat) 1
        { startInternalOk := true, stopInternalOk := true,
          inflightStartOk := true, pendingStopOk := true }).final) ∧
    (stopCall (MState.inactive : MState Nat)
        { startInternalOk := true, stopInternalOk := true,
          inflightStartOk := true, pendingStopOk := true } =
      { final := MState.inactive, err := none,
        ranStart := false, ranStop := false }) :=
  ⟨(lifecycle_idempotent Nat MState.inactive 1
      { startInternalOk := true, stopInternalOk := true,
        inflightStartOk := true, pendingStopOk := true }
      { startInternalOk := true, stopInternalOk := true,
        inflightStartOk := true, pendingStopOk := true }
      { startInternalOk := true, stopInternalOk := true,
        inflightStartOk := true, pendingStopOk := true }
      { startInternalOk := true, stopInternalOk := true,
        inflightStartOk := true, pendingStopOk := true }).1.1,
   (lifecycle_idempotent Nat MState.inactive 1
      { startInternalOk := true, stopInternalOk := true,
        inflightStartOk := true, pendingStopOk := true }
      { startInternalOk := true, stopInternalOk := true,
        inflightStartOk := true, pendingStopOk := true }
      { startInternalOk := true, stopInternalOk := true,
        inflightStartOk := true, pendingStopOk := true }
      { startInternalOk := true, stopInternalOk := true,
        inflightStartOk := true, pendingStopOk := true }).2.2.2⟩

/-- C5 counterexample: `start` called while the manager is STOPPING, with the
awaited in-flight stop failing, raises the propagated `stopInternal` error —
an error case outside the claim's enumeration (the manager is not STARTING,
not OPERATIONAL, not UNRECOVERABLE at entry, and no `startInternal`
execution is involved). -/
theorem start_error_enumeration_counterexample :
    ¬ (((startCall (MState.stopping : MState Nat) 0
          { startInternalOk := true, stopInternalOk := true,
            inflightStartOk := true, pendingStopOk := false }).err ≠ none) ↔
        claimedStartError (MState.stopping : MState Nat) 0
          { startInternalOk := true, stopInternalOk := true,
            inflightStartOk := true, pendingStopOk := false } = true) := by
  decide

/-- C5 amended: `start(config)` raises an error exactly in the claim's
enumerated cases — busy (different config while STARTING), running
(different config while OPERATIONAL), the manager is UNRECOVERABLE, or the
`startInternal` execution it performs or joins rejects — or in one further
case the claim omits: `start` is called while STOPPING and the awaited
in-flight stop fails (the manager then being UNRECOVERABLE by the time the
error propagates).  Moreover UNRECOVERABLE is terminal: every subsequent
`start` and `stop` throws and leaves the state UNRECOVERABLE. -/
theorem start_error_cases_amended (C : Type) [DecidableEq C] (s : MState C)
    (c : C) (o : LcOracle) :
    (((startCall s c o).err ≠ none) ↔
      (claimedStartError s c o = true ∨
        (s = MState.stopping ∧ o.pendingStopOk = false))) ∧
    (startCall (MState.unrecoverable : MState C) c o).err ≠ none ∧
    (startCall (MState.unrecoverable : MState C) c o).final =
      MState.unrecoverable ∧
    (stopCall (MState.unrecoverable : MState C) o).err ≠ none ∧
    (stopCall (MState.unrecoverable : MState C) o).final =
      MState.unrecoverable := by
  refine ⟨?_, by simp [startCall], by simp [startCall], by simp [stopCall],
    by simp [stopCall]⟩
  cases s with
  | unrecoverable => simp [startCall, claimedStartError]
  | stopping =>
      by_cases hp : o.pendingStopOk = true <;>
        by_cases hs : o.startInternalOk = true <;>
        simp [startCall, startRun, claimedStartError, hp, hs]
  | starting c' =>
      by_cases hc : c = c' <;> by_cases hi : o.inflightStartOk = true <;>
        simp [startCall, claimedStartError, hc, hi]
  | operational c' =>
      by_cases hc : c = c' <;> simp [startCall, claimedStartError, hc]
  | inactive =>
      by_cases hs : o.startInternalOk = true <;>
        simp [startCall, startRun, claimedStartError, hs]

/-- Witness for C5 (amended) at a concrete busy call. -/
theorem start_error_cases_amended_witness :
    (((startCall (MState.starting 2 : MState Nat) 1
        { startInternalOk := true, stopInternalOk := true,
          inflightStartOk := true, pendingStopOk := true }).err ≠ none) ↔
      (claimedStartError (MState.starting 2 : MState Nat) 1
          { startInternalOk := true, stopInternalOk := true,
            inflightStartOk := true, pendingStopOk := true } = true ∨
        ((MState.starting 2 : MState Nat) = MState.stopping ∧
          (true : Bool) = false))) :=
  (start_error_cases_amended Nat (MState.starting 2) 1
    { startInternalOk := true, stopInternalOk := true,
      inflightStartOk := true, pendingStopOk := true }).1

/-- Helper: the attempt counters of a loop trace starting at `a` are
`a, a+1, …` — the counter increments by exactly one per iteration. -/
theorem loopEvents_attempts (f dur : Nat → Nat) :
    ∀ (n a t : Nat),
      (loopEvents f dur n a t).map ProbeEvent.attempt = List.range' a n := by
  intro n
  induction n with
  | zero => intro a t; simp [loopEvents]
  | succ k ih =>
      intro a t
      simp [loopEvents, List.range'_succ, ih]

/-- Helper: every trace entry's consulted delay is `getDelayMs` at its own
attempt number. -/
theorem loopEvents_delay (f dur : Nat → Nat) :
    ∀ (n a t : Nat) (e : ProbeEvent), e ∈ loopEvents f dur n a t →
      e.delayMs = f e.attempt := by
  intro n
  induction n with
  | zero => intro a t e he; simp [loopEvents] at he
  | succ k ih =>
      intro a t e he
      rcases List.mem_cons.mp he with h | h
      · subst h; rfl
      · exact ih _ _ e h

/-- Helper: no probe starts before the loop's start time. -/
theorem loopEvents_start_lb (f dur : Nat → Nat) :
    ∀ (n a t : Nat) (e : ProbeEvent), e ∈ loopEvents f dur n a t →
      t ≤ e.startAt := by
  intro n
  induction n with
  | zero => intro a t e he; simp [loopEvents] at he
  | succ k ih =>
      intro a t e he
      rcases List.mem_cons.mp he with h | h
      · subst h; simp
      · have := ih (a + 1) (t + f a + dur a) e h
        omega

/-- Helper: the loop's end time is no earlier than its start time. -/
theorem loopEndTime_lb (f dur : Nat → Nat) :
    ∀ (n a t : Nat), t ≤ loopEndTime f dur n a t := by
  intro n
  induction n with
  | zero => intro a t; simp [loopEndTime]
  | succ k ih =>
      intro a t
      have := ih (a + 1) (t + f a + dur a)
      simp only [loopEndTime]
      omega

/-- Helper: every probe in a trace starts no later than the loop's
termination time. -/
theorem loopEvents_start_ub (f dur : Nat → Nat) :
    ∀ (n a t : Nat) (e : ProbeEvent), e ∈ loopEvents f dur n a t →
      e.startAt ≤ loopEndTime f dur n a t := by
  intro n
  induction n with
  | zero => intro a t e he; simp [loopEvents] at he
  | succ k ih =>
      intro a t e he
      rcases List.mem_cons.mp he with h | h
      · subst h
        simp only [loopEndTime]
        have := loopEndTime_lb f dur k (a + 1) (t + f a + dur a)
        omega
      · simpa only [loopEndTime] using ih (a + 1) (t + f a + dur a) e h

/-- C8: in the health-check loop, `getDelayMs` is consulted once per attempt
including the first, the attempt counter starts at 1 and increments by
exactly 1, no probe runs earlier than `getDelayMs(1)` after the loop starts,
and a restart runs the new loop — with its attempt counter reset to 1 —
strictly after every probe of the terminated previous loop. -/
theorem healthcheck_loop_correct (f g dur : Nat → Nat) (n k m t0 t1 : Nat)
    (hterm : loopEndTime f dur k 1 t0 ≤ t1) :
    ((loopEvents f dur n 1 t0).map ProbeEvent.attempt = List.range' 1 n) ∧
    (∀ e ∈ loopEvents f dur n 1 t0, e.delayMs = f e.attempt) ∧
    (∀ e ∈ loopEvents f dur n 1 t0, t0 + f 1 ≤ e.startAt) ∧
    (restartEvents f g dur k m t0 t1 =
      loopEvents f dur k 1 t0 ++ loopEvents g dur m 1 t1) ∧
    ((loopEvents g dur m 1 t1).map ProbeEvent.attempt = List.range' 1 m) ∧
    (∀ e1 ∈ loopEvents f dur k 1 t0, ∀ e2 ∈ loopEvents g dur m 1 t1,
      e1.startAt ≤ e2.startAt) := by
  refine ⟨loopEvents_attempts f dur n 1 t0, ?_, ?_, rfl,
    loopEvents_attempts g dur m 1 t1, ?_⟩
  · intro e he
    exact loopEvents_delay f dur n 1 t0 e he
  · intro e he
    cases n with
    | zero => simp [loopEvents] at he
    | succ k' =>
        rcases List.mem_cons.mp he with h | h
        · subst h; simp
        · have := loopEvents_start_lb f dur k' 2 (t0 + f 1 + dur 1) e h
          omega
  · intro e1 h1 e2 h2
    have hub := loopEvents_start_ub f dur k 1 t0 e1 h1
    have hlb := loopEvents_start_lb g dur m 1 t1 e2 h2
    omega

/-- Witness for C8 at a concrete pair of loops. -/
theorem healthcheck_loop_correct_witness :
    ((loopEvents (fun _ => 5) (fun _ => 1) 2 1 0).map ProbeEvent.attempt =
      List.range' 1 2) ∧
    (restartEvents (fun _ => 5) (fun _ => 7) (fun _ => 1) 2 1 0 12 =
      loopEvents (fun _ => 5) (fun _ => 1) 2 1 0 ++
        loopEvents (fun _ => 7) (fun _ => 1) 1 1 12) ∧
    ((loopEvents (fun _ => 7) (fun _ => 1) 1 1 12).map ProbeEvent.attempt =
      List.range' 1 1) :=
  ⟨(healthcheck_loop_correct (fun _ => 5) (fun _ => 7) (fun _ => 1) 2 2 1 0 12
      (by decide)).1,
   (healthcheck_loop_correct (fun _ => 5) (fun _ => 7) (fun _ => 1) 2 2 1 0 12
      (by decide)).2.2.2.1,
   (healthcheck_loop_correct (fun _ => 5) (fun _ => 7) (fun _ => 1) 2 2 1 0 12
      (by decide)).2.2.2.2.1⟩

end Zenvark
